import Mathlib

/-!
Shallow embedding of pgmatview (src/lib/pgmatview_main.c), a PostgreSQL
background-worker extension.  The file models the three entry points of the
module — static registration at load time (`_PG_init`), the worker main
loop (`cachemgr_main`, embedded as `loopBody`/`runLoop` over a finite list
of external events), and the dynamic launch SQL function
(`cachemgr_launch`) — together with the narrow host-substrate behaviours
they rely on (latch wait semantics, GUC range checking, dynamic worker
registration and startup confirmation).
-/

namespace PgMatView

/- ------------------------------------------------------------------
   Dynamic launch: cachemgr_launch (src/lib/pgmatview_main.c 203-257)
   ------------------------------------------------------------------ -/

/-- Host error codes carried by an ereport call.  The module only ever
raises ERRCODE_INSUFFICIENT_RESOURCES; every other code of the host error
facility is collapsed into one representative constructor. -/
inductive SqlErrCode
  | insufficientResources
  | otherCode
deriving DecidableEq

/-- An ereport(ERROR, ...) payload: error code, message and hint, as built
at lines 231-238 and 244-251 of the source. -/
structure ErrorReport where
  errcode : SqlErrCode
  errmsg : String
  errhint : String
deriving DecidableEq

/-- The BgwHandleStatus values WaitForBackgroundWorkerStartup can report
back to the launcher (the post-wait statuses). -/
inductive BgwHandleStatus
  | BGWH_STARTED
  | BGWH_STOPPED
  | BGWH_POSTMASTER_DIED
deriving DecidableEq

/-- Host-substrate behaviour observed by one cachemgr_launch call: whether
RegisterDynamicBackgroundWorker accepts the registration request, and the
status and pid that WaitForBackgroundWorkerStartup reports afterwards. -/
structure Substrate where
  registerOk : Bool
  status : BgwHandleStatus
  pid : Int
deriving DecidableEq

/-- The outcome of cachemgr_launch at its SQL interface: PG_RETURN_NULL,
an ereport(ERROR, ...) escape, or PG_RETURN_INT32(pid). -/
inductive LaunchResult
  | null
  | err (e : ErrorReport)
  | pid (p : Int)
deriving DecidableEq

/-- Model of src/lib/pgmatview_main.c 203-257.  Registration refusal returns SQL
NULL (lines 222-225); BGWH_STOPPED and BGWH_POSTMASTER_DIED both raise
ereport(ERROR, ...) with ERRCODE_INSUFFICIENT_RESOURCES (lines 229-252);
BGWH_STARTED returns the reported pid (lines 254-256). -/
def cachemgr_launch (sub : Substrate) : LaunchResult :=
  if !sub.registerOk then .null
  else match sub.status with
    | .BGWH_STOPPED =>
        .err { errcode := .insufficientResources,
               errmsg := "Could not start background process",
               errhint := "Check server logs." }
    | .BGWH_POSTMASTER_DIED =>
        .err { errcode := .insufficientResources,
               errmsg := "Cannot start background process without postmaster",
               errhint := "Kill all remaining database processes and restart the database" }
    | .BGWH_STARTED => .pid sub.pid

/-- The error code of a launch outcome, when the launch raised an error. -/
def launchErrcode : LaunchResult → Option SqlErrCode
  | .err e => some e.errcode
  | _ => none

/- ------------------------------------------------------------------
   Module load: _PG_init (src/lib/pgmatview_main.c 143-201)
   ------------------------------------------------------------------ -/

/-- Range check the host GUC machinery applies to cachemgr.worker_count,
from the min (1) and max (50) arguments of DefineCustomIntVariable at
lines 168-181.  An out-of-range configured value is rejected by the host
at configuration load, before _PG_init proceeds to register workers. -/
def workerCountValid (v : Int) : Bool := 1 ≤ v && v ≤ 50

/-- The static registration loop at lines 194-200: one
RegisterBackgroundWorker call per index i = 1 .. cachemgr_worker_count;
the result is the list of registered worker indices. -/
def staticRegistrations (count : Nat) : List Nat :=
  (List.range count).map (fun k => k + 1)

/-- Model of src/lib/pgmatview_main.c 143-201.  Outside
process_shared_preload_libraries_in_progress the function returns early
and registers nothing (lines 163-166).  Otherwise the worker_count GUC is
range checked by the host ([1,50]); a valid value leads to exactly that
many static registrations, an invalid one is a fatal configuration error
(`none`) with no registration performed. -/
def _PG_init (inPreload : Bool) (configuredWorkerCount : Int) :
    Option (List Nat) :=
  if !inPreload then some []
  else if workerCountValid configuredWorkerCount then
    some (staticRegistrations configuredWorkerCount.toNat)
  else none

/- ------------------------------------------------------------------
   Worker main loop: cachemgr_main (src/lib/pgmatview_main.c 80-140)
   ------------------------------------------------------------------ -/

/-- Mutable per-worker state: the two sticky signal flags (lines 33-34),
the latch set flag of MyLatch, and the cachemgr.sleep_time GUC value. -/
structure LoopState where
  got_sighup : Bool
  got_sigterm : Bool
  latch : Bool
  sleep_time : Int
deriving DecidableEq

/-- SIGTERM handler (lines 42-50): set the sticky flag and the latch. -/
def cachemgr_sigterm (s : LoopState) : LoopState :=
  { s with got_sigterm := true, latch := true }

/-- SIGHUP handler (lines 53-61): set the sticky flag and the latch. -/
def cachemgr_sighup (s : LoopState) : LoopState :=
  { s with got_sighup := true, latch := true }

def INT_MAX : Int := 2147483647

/-- Range check for cachemgr.sleep_time, from the min (1), max (INT_MAX)
and default (10) arguments of DefineCustomIntVariable at lines 148-161. -/
def sleepTimeValid (v : Int) : Bool := 1 ≤ v && v ≤ INT_MAX

/-- Model of ProcessConfigFile(PGC_SIGHUP) at line 121: reread cachemgr.sleep_time;
an out-of-range value in the configuration file is rejected by the GUC
machinery and the previous value is retained. -/
def ProcessConfigFile (current newVal : Int) : Int :=
  if sleepTimeValid newVal then newVal else current

/-- The wake-reason bits WaitLatch can return under the event mask
WL_LATCH_SET | WL_TIMEOUT | WL_POSTMASTER_DEATH used at line 103. -/
structure WaitResult where
  latchSet : Bool
  timedOut : Bool
  postmasterDeath : Bool
deriving DecidableEq

/-- Host latch semantics for the WaitLatch call at lines 101-106: a wait
on an already-set latch returns immediately with WL_LATCH_SET (no wakeup
is lost; the timeout is not consumed); otherwise the wait reports
postmaster death when the postmaster is gone, or WL_TIMEOUT after the
requested timeout elapses.  The timeout argument is recorded by the caller
in its iteration trace. -/
def WaitLatch (latchIsSet : Bool) (postmasterDead : Bool) : WaitResult :=
  if latchIsSet then
    { latchSet := true, timedOut := false, postmasterDeath := postmasterDead }
  else if postmasterDead then
    { latchSet := false, timedOut := false, postmasterDeath := true }
  else
    { latchSet := false, timedOut := true, postmasterDeath := false }

/-- External events of one loop iteration: signal deliveries before the
WaitLatch call and during the work cycle, whether postmaster death is
observable at this wait, whether the externally supplied unit of work
(the stub at line 130) raises an error this cycle, and the sleep_time
value a configuration reload would read. -/
structure Env where
  sigtermBeforeWait : Bool
  sighupBeforeWait : Bool
  postmasterDead : Bool
  sigtermDuringCycle : Bool
  workFails : Bool
  newSleepTime : Int
deriving DecidableEq

/-- What one pass through the loop body did:  the timeout value passed to
WaitLatch (third argument, line 104), the wake reasons returned, the value
of got_sigterm at the moment the wait returned, whether the transactional
work cycle (lines 124-136) was started and completed, whether its context
release calls (SPI_finish / PopActiveSnapshot / CommitTransactionCommand,
lines 132-134) were reached, and the exit status if the body terminated
the process (proc_exit at line 113, or an unhandled error escaping the
work cycle, which the bgworker substrate turns into a FATAL exit with
status 1). -/
structure IterationTrace where
  timeoutPassed : Int
  rc : WaitResult
  sigtermAtWake : Bool
  cycleStarted : Bool
  cycleCompleted : Bool
  contextReleased : Bool
  exitCode : Option Int
deriving DecidableEq

/-- One pass through the body of the while loop at lines 97-137, given the
external events of this iteration.  Order of operations is the source
order: signal deliveries land before the wait; WaitLatch (lines 101-106);
ResetLatch (line 108); the postmaster-death check (lines 110-114);
CHECK_FOR_INTERRUPTS (a no-op here: the custom handlers do not set the
interrupt flags); the got_sighup check and config reload (lines 118-122);
then the transactional work cycle (lines 124-136), which has no error
handler — a failing unit of work escapes before SPI_finish and the
following release calls. -/
def loopBody (s0 : LoopState) (e : Env) : IterationTrace × LoopState :=
  let s1 := if e.sigtermBeforeWait then cachemgr_sigterm s0 else s0
  let s2 := if e.sighupBeforeWait then cachemgr_sighup s1 else s1
  let t := s2.sleep_time * 1000
  let rc := WaitLatch s2.latch e.postmasterDead
  let s3 := { s2 with latch := false }
  if rc.postmasterDeath then
    ({ timeoutPassed := t, rc := rc, sigtermAtWake := s2.got_sigterm,
       cycleStarted := false, cycleCompleted := false,
       contextReleased := true, exitCode := some 1 }, s3)
  else
    let s4 := if s3.got_sighup then
                { s3 with got_sighup := false,
                          sleep_time := ProcessConfigFile s3.sleep_time e.newSleepTime }
              else s3
    let s5 := if e.sigtermDuringCycle then cachemgr_sigterm s4 else s4
    if e.workFails then
      ({ timeoutPassed := t, rc := rc, sigtermAtWake := s2.got_sigterm,
         cycleStarted := true, cycleCompleted := false,
         contextReleased := false, exitCode := some 1 }, s5)
    else
      ({ timeoutPassed := t, rc := rc, sigtermAtWake := s2.got_sigterm,
         cycleStarted := true, cycleCompleted := true,
         contextReleased := true, exitCode := none }, s5)

/-- The while loop at lines 97-139, driven by a finite list of iteration
environments.  The loop condition !got_sigterm is tested at the head of
every iteration; when it fails the loop falls through to proc_exit(1) at
line 139.  Returns the trace of executed iterations, the final state, and
the process exit status if the worker exited within the supplied events
(`none` means the loop is still running). -/
def runLoop : LoopState → List Env → List IterationTrace × LoopState × Option Int
  | s, [] => if s.got_sigterm then ([], s, some 1) else ([], s, none)
  | s, e :: es =>
    if s.got_sigterm then ([], s, some 1)
    else
      let p := loopBody s e
      match p.1.exitCode with
      | some c => ([p.1], p.2, some c)
      | none =>
        let q := runLoop p.2 es
        (p.1 :: q.1, q.2.1, q.2.2)

/-- Worker state on entry to the main loop: flags clear, latch clear, and
cachemgr.sleep_time at its default of 10 (line 36 and lines 148-161). -/
def initialState : LoopState :=
  { got_sighup := false, got_sigterm := false, latch := false, sleep_time := 10 }

/-- Model of cachemgr_main (lines 80-140) from the start of its main loop, under
the default configuration. -/
def cachemgr_main (envs : List Env) :
    List IterationTrace × LoopState × Option Int :=
  runLoop initialState envs

/-- An iteration in which nothing external happens: no signals, the
postmaster is alive, the unit of work succeeds, and the configuration
file still holds the default sleep_time. -/
def quietEnv : Env :=
  { sigtermBeforeWait := false, sighupBeforeWait := false,
    postmasterDead := false, sigtermDuringCycle := false,
    workFails := false, newSleepTime := 10 }

/- ------------------------------------------------------------------
   Helper lemmas about the loop
   ------------------------------------------------------------------ -/

/-- Once got_sigterm is set, the loop-head test fails and the worker
falls through to proc_exit(1) with no further iteration. -/
lemma runLoop_sigterm_exit (s : LoopState) (es : List Env)
    (h : s.got_sigterm = true) : runLoop s es = ([], s, some 1) := by
  cases es <;> simp [runLoop, h]

/-- Every exit taken inside the loop body carries status 1. -/
lemma loopBody_exitCode (s : LoopState) (e : Env) :
    (loopBody s e).1.exitCode = none ∨ (loopBody s e).1.exitCode = some 1 := by
  simp only [loopBody]
  split_ifs <;> simp

/-- A quiet-enough iteration (postmaster alive, unit of work succeeds)
does not exit and runs its work cycle to completion. -/
lemma loopBody_ok (s : LoopState) (e : Env)
    (hpm : e.postmasterDead = false) (hwf : e.workFails = false) :
    (loopBody s e).1.exitCode = none ∧ (loopBody s e).1.cycleStarted = true ∧
    (loopBody s e).1.cycleCompleted = true := by
  rcases e with ⟨sbw, shw, pmd, sdc, wf, nst⟩
  rcases s with ⟨gh, gt, la, st⟩
  subst hpm hwf
  cases sbw <;> cases shw <;> cases la <;> cases gh <;> cases sdc <;>
    simp [loopBody, cachemgr_sigterm, cachemgr_sighup, WaitLatch]

/-- A SIGTERM delivered before the wait is visible at the wake and leaves
got_sigterm set in the post-iteration state, whatever branch the body
takes. -/
lemma loopBody_sigterm_before (s : LoopState) (e : Env)
    (h : e.sigtermBeforeWait = true) :
    (loopBody s e).1.sigtermAtWake = true ∧
    (loopBody s e).2.got_sigterm = true := by
  rcases e with ⟨sbw, shw, pmd, sdc, wf, nst⟩
  rcases s with ⟨gh, gt, la, st⟩
  subst h
  cases shw <;> cases la <;> cases gh <;> cases pmd <;> cases sdc <;> cases wf <;>
    simp [loopBody, cachemgr_sigterm, cachemgr_sighup, WaitLatch, ProcessConfigFile]

/-- A SIGTERM delivered during the work cycle leaves got_sigterm set in
the post-iteration state (the postmaster-death branch is not taken). -/
lemma loopBody_sigterm_during (s : LoopState) (e : Env)
    (hpm : e.postmasterDead = false) (h : e.sigtermDuringCycle = true) :
    (loopBody s e).2.got_sigterm = true := by
  rcases e with ⟨sbw, shw, pmd, sdc, wf, nst⟩
  rcases s with ⟨gh, gt, la, st⟩
  subst hpm h
  cases sbw <;> cases shw <;> cases la <;> cases gh <;> cases wf <;>
    simp [loopBody, cachemgr_sigterm, cachemgr_sighup, WaitLatch, ProcessConfigFile]

/-- Postmaster death observed at the wait makes the body exit with status
1 before any work cycle starts. -/
lemma loopBody_pm_death (s : LoopState) (e : Env)
    (hpm : e.postmasterDead = true) :
    (loopBody s e).1.exitCode = some 1 ∧ (loopBody s e).1.cycleStarted = false ∧
    (loopBody s e).1.rc.postmasterDeath = true := by
  rcases e with ⟨sbw, shw, pmd, sdc, wf, nst⟩
  rcases s with ⟨gh, gt, la, st⟩
  subst hpm
  cases sbw <;> cases shw <;> cases la <;> cases gh <;>
    simp [loopBody, cachemgr_sigterm, cachemgr_sighup, WaitLatch]

/-- A failing unit of work escapes the cycle before the release calls and
terminates the worker with status 1. -/
lemma loopBody_work_fails (s : LoopState) (e : Env)
    (hpm : e.postmasterDead = false) (hwf : e.workFails = true) :
    (loopBody s e).1.exitCode = some 1 ∧ (loopBody s e).1.cycleStarted = true ∧
    (loopBody s e).1.cycleCompleted = false ∧
    (loopBody s e).1.contextReleased = false := by
  rcases e with ⟨sbw, shw, pmd, sdc, wf, nst⟩
  rcases s with ⟨gh, gt, la, st⟩
  subst hpm hwf
  cases sbw <;> cases shw <;> cases la <;> cases gh <;> cases sdc <;>
    simp [loopBody, cachemgr_sigterm, cachemgr_sighup, WaitLatch, ProcessConfigFile]

/- ------------------------------------------------------------------
   Claim theorems
   ------------------------------------------------------------------ -/

/-- C1 (counterexample).  The claim says a ParentDied post-wait status
fails with SupervisorGone, an error kind distinct from the
InsufficientResources kind used for Stopped.  In the code both branches
raise ereport(ERROR, ...) with the very same
ERRCODE_INSUFFICIENT_RESOURCES error code: at a concrete launch the two
error codes coincide. -/
theorem C1_counterexample :
    launchErrcode (cachemgr_launch
      { registerOk := true, status := .BGWH_POSTMASTER_DIED, pid := 0 }) =
      launchErrcode (cachemgr_launch
        { registerOk := true, status := .BGWH_STOPPED, pid := 0 }) ∧
    launchErrcode (cachemgr_launch
      { registerOk := true, status := .BGWH_POSTMASTER_DIED, pid := 0 }) =
      some .insufficientResources := by decide

/-- C1 (amended).  For every dynamic launch whose registration is
accepted, the outcome is determined by the post-wait status: Stopped
fails with an InsufficientResources error saying the background process
could not be started; ParentDied fails with an error carrying the same
InsufficientResources code (distinguished from the Stopped case only by
its message and hint, not by error kind); Started returns the reported
pid. -/
theorem C1_launch_outcomes (sub : Substrate) (hreg : sub.registerOk = true) :
    (sub.status = .BGWH_STOPPED → cachemgr_launch sub =
      .err { errcode := .insufficientResources,
             errmsg := "Could not start background process",
             errhint := "Check server logs." }) ∧
    (sub.status = .BGWH_POSTMASTER_DIED → cachemgr_launch sub =
      .err { errcode := .insufficientResources,
             errmsg := "Cannot start background process without postmaster",
             errhint := "Kill all remaining database processes and restart the database" }) ∧
    (sub.status = .BGWH_STARTED → cachemgr_launch sub = .pid sub.pid) := by
  refine ⟨?_, ?_, ?_⟩ <;> intro h <;> simp [cachemgr_launch, hreg, h]

/-- C1 (witness).  A concrete ParentDied launch produces the
InsufficientResources-coded error with the postmaster message. -/
theorem C1_launch_outcomes_witness :
    cachemgr_launch { registerOk := true, status := .BGWH_POSTMASTER_DIED, pid := 0 } =
      .err { errcode := .insufficientResources,
             errmsg := "Cannot start background process without postmaster",
             errhint := "Kill all remaining database processes and restart the database" } :=
  (C1_launch_outcomes
    { registerOk := true, status := .BGWH_POSTMASTER_DIED, pid := 0 } rfl).2.1 rfl

/-- C2 (counterexample).  The claim says that when terminationRequested
is observed at the wake from an Idle wait, no further WorkCycle runs.  In
the code got_sigterm is tested only at the loop head: with SIGTERM
delivered before the wait, the wake sees got_sigterm already set
(sigtermAtWake = true) and the iteration nevertheless starts and
completes a full WorkCycle before the worker exits. -/
theorem C2_counterexample :
    ((cachemgr_main [{ quietEnv with sigtermBeforeWait := true }]).1.map
      (fun t => (t.sigtermAtWake, t.cycleStarted, t.cycleCompleted))) =
      [(true, true, true)] ∧
    (cachemgr_main [{ quietEnv with sigtermBeforeWait := true }]).2.2 = some 1 := by decide

/-- C2 (amended).  If terminationRequested is set when the loop wakes
from an Idle wait (and neither postmaster death nor a work failure
intervenes), the loop still runs that iteration's WorkCycle to
completion, then observes the flag at the loop head and exits with
status 1 running no further iteration: the remaining event list is never
consumed. -/
theorem C2_termination_after_wake (s : LoopState) (e : Env) (es : List Env)
    (h1 : s.got_sigterm = false) (h2 : e.sigtermBeforeWait = true)
    (h3 : e.postmasterDead = false) (h4 : e.workFails = false) :
    ∃ tr s2, runLoop s (e :: es) = ([tr], s2, some 1) ∧
      tr.sigtermAtWake = true ∧ tr.cycleStarted = true ∧
      tr.cycleCompleted = true := by
  obtain ⟨hec, hcs, hcc⟩ := loopBody_ok s e h3 h4
  obtain ⟨hsw, hgt⟩ := loopBody_sigterm_before s e h2
  refine ⟨(loopBody s e).1, (loopBody s e).2, ?_, hsw, hcs, hcc⟩
  simp [runLoop, h1, hec, runLoop_sigterm_exit (loopBody s e).2 es hgt]

/-- C2 (witness).  A concrete run with SIGTERM delivered before the first
wait: one full cycle, then exit 1. -/
theorem C2_termination_after_wake_witness :
    ∃ tr s2, runLoop initialState
        ({ quietEnv with sigtermBeforeWait := true } :: [quietEnv]) =
        ([tr], s2, some 1) ∧
      tr.sigtermAtWake = true ∧ tr.cycleStarted = true ∧
      tr.cycleCompleted = true :=
  C2_termination_after_wake initialState _ [quietEnv] rfl rfl rfl rfl

/-- C3 (code bug).  The cachemgr.sleep_time GUC is documented as
milliseconds (default 10, min 1), yet the WaitLatch call multiplies it by
1000: under the default configuration the timeout actually passed is
10000 ms, not the configured 10 ms. -/
theorem C3_timeout_not_milliseconds :
    ((cachemgr_main [quietEnv]).1.map (fun t => t.timeoutPassed)) = [10 * 1000] ∧
    initialState.sleep_time = 10 ∧
    ((cachemgr_main [quietEnv]).1.map (fun t => t.timeoutPassed)) ≠
      [initialState.sleep_time] := by decide

/-- C4 (counterexample).  The claim says an always-failing unit of work
leaves the loop running over N consecutive cycles with the context
released each time.  The work cycle has no error handler: with three
scheduled iterations of failing work, only one iteration runs at all, the
release calls (SPI_finish and following) are never reached, and the
worker exits with status 1. -/
theorem C4_counterexample :
    ((cachemgr_main (List.replicate 3 { quietEnv with workFails := true })).1.map
      (fun t => (t.cycleStarted, t.cycleCompleted, t.contextReleased, t.exitCode))) =
      [(true, false, false, some 1)] ∧
    (cachemgr_main (List.replicate 3 { quietEnv with workFails := true })).2.2 =
      some 1 := by decide

/-- C4 (amended).  A failure of the unit of work during a WorkCycle is
not caught: the error escapes before the context release calls and
terminates the WorkerLoop during that very cycle, with no further
iteration. -/
theorem C4_work_failure_terminates (s : LoopState) (e : Env) (es : List Env)
    (h1 : s.got_sigterm = false) (h2 : e.postmasterDead = false)
    (h3 : e.workFails = true) :
    ∃ tr s2, runLoop s (e :: es) = ([tr], s2, some 1) ∧
      tr.cycleStarted = true ∧ tr.cycleCompleted = false ∧
      tr.contextReleased = false := by
  obtain ⟨hec, hcs, hcc, hcr⟩ := loopBody_work_fails s e h2 h3
  refine ⟨(loopBody s e).1, (loopBody s e).2, ?_, hcs, hcc, hcr⟩
  simp [runLoop, h1, hec]

/-- C4 (witness).  A concrete failing cycle terminates the worker with
the context unreleased. -/
theorem C4_work_failure_terminates_witness :
    ∃ tr s2, runLoop initialState [{ quietEnv with workFails := true }] =
        ([tr], s2, some 1) ∧
      tr.cycleStarted = true ∧ tr.cycleCompleted = false ∧
      tr.contextReleased = false :=
  C4_work_failure_terminates initialState _ [] rfl rfl rfl

/-- C5.  Under shared_preload loading, a configured worker_count inside
[1,50] leads to exactly that many static registrations; a value outside
the range is rejected by the GUC range check at configuration load and no
registration happens. -/
theorem C5_worker_registration (c : Int) :
    (1 ≤ c ∧ c ≤ 50 →
      ∃ l, _PG_init true c = some l ∧ (l.length : Int) = c) ∧
    (¬(1 ≤ c ∧ c ≤ 50) → _PG_init true c = none) := by
  constructor
  · rintro ⟨h1, h2⟩
    have hv : workerCountValid c = true := by
      simp only [workerCountValid, Bool.and_eq_true, decide_eq_true_eq]
      omega
    refine ⟨staticRegistrations c.toNat, ?_, ?_⟩
    · simp [_PG_init, hv]
    · simp only [staticRegistrations, List.length_map, List.length_range]
      omega
  · intro h
    have hv : workerCountValid c = false := by
      simp only [workerCountValid, Bool.and_eq_false_iff, decide_eq_false_iff_not]
      omega
    simp [_PG_init, hv]

/-- C5 (witness).  Registering with worker_count 3 yields three workers;
worker_count 51 is rejected with no registration. -/
theorem C5_worker_registration_witness :
    (∃ l, _PG_init true 3 = some l ∧ (l.length : Int) = 3) ∧
    _PG_init true 51 = none :=
  ⟨(C5_worker_registration 3).1 (by decide),
   (C5_worker_registration 51).2 (by decide)⟩

/-- C6.  If terminationRequested arrives while a WorkCycle is executing
(and the cycle itself neither fails nor observes postmaster death), the
cycle runs to completion, the flag is then observed at the loop head, and
the loop terminates with no further iteration: cooperative, never
mid-cycle, termination. -/
theorem C6_cooperative_termination (s : LoopState) (e : Env) (es : List Env)
    (h1 : s.got_sigterm = false) (h2 : e.postmasterDead = false)
    (h3 : e.workFails = false) (h4 : e.sigtermDuringCycle = true) :
    ∃ tr s2, runLoop s (e :: es) = ([tr], s2, some 1) ∧
      tr.cycleStarted = true ∧ tr.cycleCompleted = true ∧
      s2.got_sigterm = true := by
  obtain ⟨hec, hcs, hcc⟩ := loopBody_ok s e h2 h3
  have hgt := loopBody_sigterm_during s e h2 h4
  refine ⟨(loopBody s e).1, (loopBody s e).2, ?_, hcs, hcc, hgt⟩
  simp [runLoop, h1, hec, runLoop_sigterm_exit (loopBody s e).2 es hgt]

/-- C6 (witness).  A concrete SIGTERM during the first cycle: the cycle
completes, then the worker exits. -/
theorem C6_cooperative_termination_witness :
    ∃ tr s2, runLoop initialState [{ quietEnv with sigtermDuringCycle := true }] =
        ([tr], s2, some 1) ∧
      tr.cycleStarted = true ∧ tr.cycleCompleted = true ∧
      s2.got_sigterm = true :=
  C6_cooperative_termination initialState _ [] rfl rfl rfl rfl

/-- C7.  An Idle wait that returns with the parent-death reason makes the
loop exit at once with non-zero status 1: no WorkCycle of that iteration
starts, no recovery happens, and no further iteration runs. -/
theorem C7_parent_death_fatal (s : LoopState) (e : Env) (es : List Env)
    (h1 : s.got_sigterm = false) (h2 : e.postmasterDead = true) :
    ∃ tr s2, runLoop s (e :: es) = ([tr], s2, some 1) ∧
      tr.rc.postmasterDeath = true ∧ tr.cycleStarted = false := by
  obtain ⟨hec, hcs, hpd⟩ := loopBody_pm_death s e h2
  refine ⟨(loopBody s e).1, (loopBody s e).2, ?_, hpd, hcs⟩
  simp [runLoop, h1, hec]

/-- C7 (witness).  A concrete wait observing postmaster death exits with
status 1 before any cycle. -/
theorem C7_parent_death_fatal_witness :
    ∃ tr s2, runLoop initialState [{ quietEnv with postmasterDead := true }] =
        ([tr], s2, some 1) ∧
      tr.rc.postmasterDeath = true ∧ tr.cycleStarted = false :=
  C7_parent_death_fatal initialState _ [] rfl rfl

/-- C8.  A latch set that happens before the wait call — the latch
already set on entry, or set by a SIGTERM or SIGHUP delivery before the
wait — is never lost: that iteration's WaitLatch returns immediately with
the explicit-set reason and without consuming the timeout, because
ResetLatch runs only after the wait returns and the sticky flags are read
after the reset. -/
theorem C8_no_lost_wakeup (s : LoopState) (e : Env)
    (h : s.latch = true ∨ e.sigtermBeforeWait = true ∨ e.sighupBeforeWait = true) :
    (loopBody s e).1.rc.latchSet = true ∧
    (loopBody s e).1.rc.timedOut = false := by
  rcases s with ⟨gh, gt, la, st⟩
  rcases e with ⟨sbw, shw, pmd, sdc, wf, nst⟩
  cases la <;> cases sbw <;> cases shw <;> cases pmd <;> cases wf <;>
    simp_all [loopBody, cachemgr_sigterm, cachemgr_sighup, WaitLatch,
      ProcessConfigFile]

/-- C8 (witness).  A concrete SIGTERM delivery before the wait makes that
wait return immediately with the explicit-set reason. -/
theorem C8_no_lost_wakeup_witness :
    (loopBody initialState { quietEnv with sigtermBeforeWait := true }).1.rc.latchSet = true ∧
    (loopBody initialState { quietEnv with sigtermBeforeWait := true }).1.rc.timedOut = false :=
  C8_no_lost_wakeup initialState _ (Or.inr (Or.inl rfl))

/-- C9.  When the dynamic registration request itself is refused by the
host substrate, cachemgr_launch returns SQL NULL before any wait on the
worker handle: a third outcome distinct from a pid and from the two
structured ereport failures. -/
theorem C9_refused_registration_null (sub : Substrate)
    (h : sub.registerOk = false) :
    cachemgr_launch sub = .null := by
  simp [cachemgr_launch, h]

/-- C9 (witness).  A concrete refused registration yields NULL. -/
theorem C9_refused_registration_null_witness :
    cachemgr_launch { registerOk := false, status := .BGWH_STARTED, pid := 7 } =
      .null :=
  C9_refused_registration_null _ rfl

/-- C10.  Every exit of the worker main loop — requested shutdown after
got_sigterm, postmaster-death detection, or an error escaping the work
cycle — uses the same non-zero process exit status 1; a run that has not
exited reports no status. -/
theorem C10_uniform_exit_status (s : LoopState) (es : List Env) :
    (runLoop s es).2.2 = none ∨ (runLoop s es).2.2 = some 1 := by
  induction es generalizing s with
  | nil => cases h : s.got_sigterm <;> simp [runLoop, h]
  | cons e es ih =>
    cases h : s.got_sigterm with
    | true => simp [runLoop, h]
    | false =>
      rcases loopBody_exitCode s e with hec | hec
      · have := ih (loopBody s e).2
        simpa [runLoop, h, hec] using this
      · simp [runLoop, h, hec]

end PgMatView
